import Mathlib

/- Formal model of the realtime audio pipeline and session protocol of the
Gemini-Live-voice client (src/App.tsx, src/services/geminiService.ts).

Modelling conventions:
* JavaScript double-precision numbers are idealized as exact rationals (ℚ);
  audio sample values, clock times and durations are rationals.
* The browser runtime is single threaded and event driven; every callback
  (audio-processing callback, websocket message callback, buffer-completion
  callback) runs to completion atomically.  A `setAssistantState` call only
  takes effect after the callback returns (React commits the update and the
  `useEffect` of App.tsx lines 51-53 then refreshes the `stateRef` mirror),
  so a read of `stateRef.current` later in the same callback still sees the
  value the callback started with; between two callbacks the mirror is in
  sync.  The state record models the synced value at each event boundary,
  and `onAudio` — the one callback that writes the state and then reads the
  mirror — threads the stale value into its admission check explicitly.
* `0/0` (a NaN in JavaScript) is `0` in ℚ; the theorems below never rest on
  that corner except where explicitly discussed.
-/

/-! ### Resampler (App.tsx, `processAudio`, lines 181-201) -/

/-- `TARGET_SAMPLE_RATE` (App.tsx line 9). -/
def TARGET_SAMPLE_RATE : ℚ := 16000

/-- `PLAYER_SAMPLE_RATE` (App.tsx line 10). -/
def PLAYER_SAMPLE_RATE : ℚ := 24000

/-- JavaScript `Math.round`: round half toward positive infinity. -/
def qround (x : ℚ) : ℤ := ⌊x + 1/2⌋

/-- The body of the `while (offsetResult < downsampled.length)` loop of
`processAudio` (App.tsx lines 191-201).  `fuel` is the number of output
samples still to produce (`downsampled.length - offsetResult`); the loop
carries the current output index `offsetResult` and the input cursor
`offsetBuffer`.  Each step averages the input samples with index in
`[offsetBuffer, min nextOffsetBuffer input.length)`; an empty bucket gives
`0/0`, which is `NaN` in JavaScript and `0` in ℚ. -/
def downsampleLoop (input : List ℚ) (ratio : ℚ) :
    (fuel offsetResult offsetBuffer : ℕ) → List ℚ
  | 0, _, _ => []
  | fuel + 1, offsetResult, offsetBuffer =>
      let nextOffsetBuffer : ℕ := (qround (((offsetResult : ℚ) + 1) * ratio)).toNat
      let bucket : List ℚ := (input.drop offsetBuffer).take (nextOffsetBuffer - offsetBuffer)
      (bucket.sum / bucket.length) ::
        downsampleLoop input ratio fuel (offsetResult + 1) nextOffsetBuffer

/-- The downsampling stage of `processAudio` (App.tsx lines 186-201):
`sampleRateRatio = inputSampleRate / TARGET_SAMPLE_RATE`,
`newLength = Math.round(inputData.length / sampleRateRatio)`, then the
block-averaging loop starting from `offsetResult = 0`, `offsetBuffer = 0`. -/
def downsample (inputData : List ℚ) (inputSampleRate : ℚ) : List ℚ :=
  let ratio := inputSampleRate / TARGET_SAMPLE_RATE
  let newLength : ℕ := (qround ((inputData.length : ℚ) / ratio)).toNat
  downsampleLoop inputData ratio newLength 0 0

/-- The specification's description of one output sample: the arithmetic mean
of the input samples whose index lies in the half-open interval
`[round(i*ratio), round((i+1)*ratio))`, clipped to the valid input range.
Stated from the spec's words, to be compared with the loop above. -/
def bucketMeanSpec (input : List ℚ) (ratio : ℚ) (i : ℕ) : ℚ :=
  let a : ℕ := (qround ((i : ℚ) * ratio)).toNat
  let b : ℕ := (qround (((i : ℚ) + 1) * ratio)).toNat
  let bucket : List ℚ := (input.drop a).take (b - a)
  bucket.sum / bucket.length

/-! ### Voice activity detector (App.tsx, `processAudio`, lines 203-214) -/

/-- `VAD_THRESHOLD` (App.tsx line 12). -/
def VAD_THRESHOLD : ℚ := 1/50

/-- `sumSquares` accumulated over the downsampled frame (App.tsx lines 204-207). -/
def sumSquares (frame : List ℚ) : ℚ := (frame.map fun s => s * s).sum

/-- `sumSquares / downsampled.length` — the mean square of a frame, the square
of the `rms` value of App.tsx line 208. -/
def meanSquare (frame : List ℚ) : ℚ := sumSquares frame / frame.length

/-- The VAD decision `rms > VAD_THRESHOLD` of App.tsx line 211, in the
decidable squared form (`Real.sqrt` has no computable counterpart; the
equivalence with `rms frame > VAD_THRESHOLD` is proved in
`vadTrigger_iff_rms_gt`). -/
def vadTrigger (frame : List ℚ) : Bool :=
  decide (VAD_THRESHOLD ^ 2 < meanSquare frame)

/-- `rms = Math.sqrt(sumSquares / downsampled.length)` (App.tsx line 208). -/
noncomputable def rms (frame : List ℚ) : ℝ :=
  Real.sqrt ((meanSquare frame : ℚ) : ℝ)

/-! ### PCM encoding (App.tsx lines 217-221) and decoding (lines 144-149) -/

/-- `Math.max(-1, Math.min(1, x))` (App.tsx line 219). -/
def clampSample (x : ℚ) : ℚ := max (-1) (min 1 x)

/-- Storing a number into an `Int16Array` truncates it toward zero
(`ToInt16`); the wrap modulo `2^16` never fires here because the stored
values are produced from clamped samples (see `pcm16Encode_range`). -/
def toInt16Trunc (q : ℚ) : ℤ := if q < 0 then ⌈q⌉ else ⌊q⌋

/-- One sample of the PCM encoder (App.tsx lines 219-220):
`s = clamp(x)`, then `s < 0 ? s * 0x8000 : s * 0x7FFF` stored as a 16-bit
integer. -/
def pcm16EncodeSample (x : ℚ) : ℤ :=
  let s := clampSample x
  toInt16Trunc (if s < 0 then s * 32768 else s * 32767)

/-- The PCM encoder applied to a downsampled frame (App.tsx lines 217-221). -/
def pcm16Encode (samples : List ℚ) : List ℤ := samples.map pcm16EncodeSample

/-- The playback decoder (App.tsx lines 145-149): each 16-bit integer `v`
becomes the float `v / 32767.0`. -/
def pcm16Decode (ints : List ℤ) : List ℚ := ints.map fun v => (v : ℚ) / 32767

/-- The full outbound audio path of `processAudio` for one captured frame:
downsample, then PCM-encode (The base64 text encoding of App.tsx lines
223-229 is an injective transport wrapper and is not modelled). -/
def processAudioPacket (inputData : List ℚ) (inputSampleRate : ℚ) : List ℤ :=
  pcm16Encode (downsample inputData inputSampleRate)

/-! ### Conversation state machine and playback scheduler (App.tsx) -/

/-- `AssistantState` (src/types.ts). -/
inductive AssistantState where
  | IDLE
  | LISTENING
  | PROCESSING
  | SPEAKING
deriving DecidableEq, Repr

/-- A decoded playback buffer (`AudioBuffer`): an identity tag (object
identity, used by the `onended` guard of App.tsx lines 129-134) and its
duration in seconds. -/
structure Buf where
  bid : ℕ
  duration : ℚ
deriving DecidableEq, Repr

/-- The mutable state of the App component that the audio pipeline reads and
writes: the conversation state (with its synchronously-mirrored `stateRef`),
the playback refs (App.tsx lines 42-46), and two ghost fields:
`scheduledSinceListening` counts buffers scheduled since the last transition
into `LISTENING`, and `startLog` records each `(buffer, source.start time)`
pair in scheduling order. -/
structure AppState where
  assistantState : AssistantState
  playerCtx : Bool
  audioQueue : List Buf
  isPlaying : Bool
  nextPlayTime : ℚ
  currentSource : Option Buf
  scheduledSinceListening : ℕ
  startLog : List (Buf × ℚ)
deriving DecidableEq, Repr

/-- `stopPlayback` (App.tsx lines 57-69): detach the `onended` callback of the
current source (modelled by clearing `currentSource`, which makes every
subsequent `onEnded` event a no-op), force-stop it, clear the queue, reset the
playing flag.  `nextPlayTimeRef` is not touched. -/
def stopPlayback (s : AppState) : AppState :=
  { s with currentSource := none, audioQueue := [], isPlaying := false }

/-- `playNextInQueue` (App.tsx lines 107-135), invoked with the playback
clock reading `now` (`playerAudioContextRef.current.currentTime`). -/
def playNextInQueue (now : ℚ) (s : AppState) : AppState :=
  if s.audioQueue = [] ∨ s.playerCtx = false then
    -- lines 108-116: drained (or no player context)
    let s1 := { s with isPlaying := false }
    if s1.assistantState = AssistantState.SPEAKING then
      { s1 with assistantState := AssistantState.LISTENING, scheduledSinceListening := 0 }
    else s1
  else
    match s.audioQueue with
    | [] => s
    | buf :: rest =>
        -- lines 118-127: dequeue the head, schedule it gaplessly
        let playTime := max now s.nextPlayTime
        { s with isPlaying := true,
                 audioQueue := rest,
                 currentSource := some buf,
                 nextPlayTime := playTime + buf.duration,
                 scheduledSinceListening := s.scheduledSinceListening + 1,
                 startLog := s.startLog ++ [(buf, playTime)] }

/-- `addAudioChunkToQueue` (App.tsx lines 138-161) for an already-decoded
chunk (a malformed chunk is dropped by the `catch` of lines 158-160 and is
not modelled). -/
def addAudioChunkToQueue (now : ℚ) (buf : Buf) (s : AppState) : AppState :=
  if s.assistantState ≠ AssistantState.SPEAKING then s
  else if s.playerCtx = false then s
  else
    let s1 := { s with audioQueue := s.audioQueue ++ [buf] }
    if s1.isPlaying then s1 else playNextInQueue now s1

/-- `handleInterrupt` (App.tsx lines 168-174). -/
def handleInterrupt (s : AppState) : AppState :=
  if s.assistantState = AssistantState.SPEAKING then
    let s1 := stopPlayback s
    { s1 with assistantState := AssistantState.LISTENING, scheduledSinceListening := 0 }
  else s

/-- The state effect of `processAudio` (App.tsx lines 181-230) on one captured
frame: downsample, compute the frame RMS, and fire the interrupt callback when
the assistant is speaking and the RMS exceeds the threshold (lines 211-214).
The outbound packet produced by the same invocation is `processAudioPacket`. -/
def processAudioApp (inputData : List ℚ) (inputSampleRate : ℚ) (s : AppState) : AppState :=
  let downsampled := downsample inputData inputSampleRate
  if s.assistantState = AssistantState.SPEAKING ∧ vadTrigger downsampled = true then
    handleInterrupt s
  else s

/-- The `onAudio` session callback (App.tsx lines 291-298): when the chunk
arrives while listening it calls `setAssistantState(SPEAKING)` and then,
still in the same callback, `addAudioChunkToQueue` — whose admission check
(line 140) reads `stateRef.current`, updated only by the `useEffect` of
lines 51-53 after the callback returns.  The admission check therefore still
sees `LISTENING` and the chunk is dropped, while the `SPEAKING` update lands
once the callback is over.  When the state is already `SPEAKING` (every later
chunk of the response) the mirror is in sync and the chunk is admitted. -/
def onAudio (now : ℚ) (buf : Buf) (s : AppState) : AppState :=
  if s.assistantState = AssistantState.LISTENING then
    { addAudioChunkToQueue now buf s with assistantState := AssistantState.SPEAKING }
  else
    addAudioChunkToQueue now buf s

/-- The `onended` completion callback of a scheduled source (App.tsx lines
129-134), firing at clock time `now`: it recurses into `playNextInQueue` only
when the ended source is still the current one. -/
def onEnded (now : ℚ) (src : Buf) (s : AppState) : AppState :=
  if s.currentSource = some src then
    playNextInQueue now { s with currentSource := none }
  else s

/-- `startConversation` (App.tsx lines 261-272): state to `PROCESSING`, a
fresh player context, `nextPlayTimeRef.current = 0`. -/
def startConversation (s : AppState) : AppState :=
  { s with assistantState := AssistantState.PROCESSING,
           playerCtx := true,
           nextPlayTime := 0 }

/-- `endConversation` (App.tsx lines 72-104): state to `IDLE`, stop playback,
close the player context, close the session. -/
def endConversation (s : AppState) : AppState :=
  let s1 := stopPlayback { s with assistantState := AssistantState.IDLE }
  { s1 with playerCtx := false }

/-- The `onOpen` session callback (App.tsx lines 275-279).  It fires exactly
once per `startGeminiLiveSession` call, during the `PROCESSING` phase (the
toggle button is disabled while `PROCESSING`, so the conversation cannot be
torn down before the callback lands); the guard encodes that environment
assumption. -/
def onOpen (s : AppState) : AppState :=
  if s.assistantState = AssistantState.PROCESSING then
    { s with assistantState := AssistantState.LISTENING, scheduledSinceListening := 0 }
  else s

/-- The events the single-threaded runtime can deliver to the App. -/
inductive AppEvent where
  | toggle
  | opened
  | errored
  | audio (now : ℚ) (buf : Buf)
  | ended (now : ℚ) (src : Buf)
  | frame (inputData : List ℚ) (inputSampleRate : ℚ)
deriving Repr

/-- One atomic event dispatch.  `toggle` is `handleToggleConversation`
(App.tsx lines 325-331); `errored` is the `onError`/`catch` path. -/
def appStep (s : AppState) : AppEvent → AppState
  | AppEvent.toggle =>
      if s.assistantState = AssistantState.IDLE then startConversation s
      else endConversation s
  | AppEvent.opened => onOpen s
  | AppEvent.errored => endConversation s
  | AppEvent.audio now buf => onAudio now buf s
  | AppEvent.ended now src => onEnded now src s
  | AppEvent.frame inputData inputSampleRate => processAudioApp inputData inputSampleRate s

/-- The initial App state (App.tsx lines 26, 42-46). -/
def appInit : AppState :=
  { assistantState := AssistantState.IDLE,
    playerCtx := false,
    audioQueue := [],
    isPlaying := false,
    nextPlayTime := 0,
    currentSource := none,
    scheduledSinceListening := 0,
    startLog := [] }

/-- Run a list of events from the initial state. -/
def appRun (events : List AppEvent) : AppState :=
  events.foldl appStep appInit

/-- The reachability invariant of the playback/conversation machine. -/
def AppInv (s : AppState) : Prop :=
  (s.assistantState = AssistantState.SPEAKING →
     (s.isPlaying = true ∧ 1 ≤ s.scheduledSinceListening)
     ∨ (s.isPlaying = false ∧ s.audioQueue = [] ∧ s.currentSource = none
        ∧ s.scheduledSinceListening = 0))
  ∧ (s.assistantState ≠ AssistantState.SPEAKING →
     s.audioQueue = [] ∧ s.isPlaying = false ∧ s.currentSource = none)
  ∧ (s.assistantState ≠ AssistantState.IDLE → s.playerCtx = true)
  ∧ (s.assistantState = AssistantState.LISTENING → s.scheduledSinceListening = 0)

/-! ### Session protocol client (src/services/geminiService.ts) -/

/-- The session object handed back by `ai.live.connect`: an identity and its
transport-level `isClosed` flag. -/
structure SessionHandle where
  hid : ℕ
  isClosed : Bool
deriving DecidableEq, Repr

/-- The module-level mutable state of geminiService.ts: the `session`
variable (line 160), plus ghost observation fields: `pendingConnects` counts
`ai.live.connect` calls whose `await` has not yet resolved, `connectAttempts`
counts every `ai.live.connect` invocation ever made, and `sentAudio` logs the
packets actually handed to `session.sendRealtimeInput`. -/
structure SvcState where
  session : Option SessionHandle
  pendingConnects : ℕ
  connectAttempts : ℕ
  sentAudio : List String
deriving DecidableEq, Repr

/-- The initial module state (`let session = null`, line 160). -/
def svcInit : SvcState :=
  { session := none, pendingConnects := 0, connectAttempts := 0, sentAudio := [] }

/-- The synchronous prefix of `startGeminiLiveSession` (lines 162-177): the
guard `if (session) return;` followed, when it passes, by the call to
`ai.live.connect(...)` — the `session` variable itself is only assigned later,
when the `await` resolves. -/
def startGeminiLiveSessionBegin (s : SvcState) : SvcState :=
  if s.session.isSome then s
  else { s with pendingConnects := s.pendingConnects + 1,
                connectAttempts := s.connectAttempts + 1 }

/-- The resolution of the `await ai.live.connect(...)` of line 177: the
freshly connected handle is stored in `session`. -/
def connectResolve (h : SessionHandle) (s : SvcState) : SvcState :=
  if 0 < s.pendingConnects then
    { s with session := some h, pendingConnects := s.pendingConnects - 1 }
  else s

/-- `sendAudioToGemini` (lines 223-234): drop the packet unless a session is
open (`!session || session.isClosed`). -/
def sendAudioToGemini (audioData : String) (s : SvcState) : SvcState :=
  match s.session with
  | none => s
  | some h => if h.isClosed then s else { s with sentAudio := s.sentAudio ++ [audioData] }

/-- `closeGeminiLiveSession` (lines 451-456): close the underlying session
and null the handle, only when one is open. -/
def closeGeminiLiveSession (s : SvcState) : SvcState :=
  match s.session with
  | none => s
  | some h => if h.isClosed then s else { s with session := none }

/-- Whether a session is currently open, as tested by
`if (session && !session.isClosed)` (lines 224, 446, 452). -/
def sessionOpen (s : SvcState) : Bool :=
  match s.session with
  | none => false
  | some h => !h.isClosed

/-! ### Tool dispatch (geminiService.ts, `handleToolCall`, lines 405-449)

JavaScript values flowing through the tool handlers are modelled by `JVal`;
a thrown JavaScript exception is `Except.error`.  Within handler bodies the
numeric work is carried out exactly on ℚ, while pieces that only format
output text (`toFixed`, template strings, `toLocaleDateString`,
`toISOString`) are abstracted: the underlying number (or a fixed placeholder
string) is stored instead of its formatted text.  `NaN` propagation from
non-numeric operands of arithmetic (which never throws in JavaScript) is
abstracted by treating such operands as `0`. -/

inductive JVal where
  | undef
  | bool (b : Bool)
  | num (q : ℚ)
  | str (s : String)
  | arr (elems : List JVal)
  | obj (fields : List (String × JVal))

/-- Property access `v[k]` on an object; `undefined` when absent. -/
def jget (v : JVal) (k : String) : JVal :=
  match v with
  | JVal.obj fields => (fields.lookup k).getD JVal.undef
  | _ => JVal.undef

/-- Numeric coercion used where JavaScript arithmetic would produce `NaN` on
a non-number (abstracted to `0`, see above). -/
def toNum (v : JVal) : ℚ :=
  match v with
  | JVal.num q => q
  | _ => 0

/-- JavaScript truthiness, as used by `||` defaults. -/
def truthy (v : JVal) : Bool :=
  match v with
  | JVal.undef => false
  | JVal.bool b => b
  | JVal.num q => decide (q ≠ 0)
  | JVal.str s => decide (s ≠ "")
  | JVal.arr _ => true
  | JVal.obj _ => true

/-- An error-shaped tool result: an object carrying an `error` field, the
shape produced by the `catch` branch, the `default` branch and the handlers'
own error returns. -/
def isErrorShaped (v : JVal) : Bool :=
  match v with
  | JVal.obj fields => (fields.lookup "error").isSome
  | _ => false

/-- `.reduce` / `.forEach` / `.length` on a value that must be an array:
throws a `TypeError` otherwise. -/
def elemsOf (v : JVal) : Except String (List JVal) :=
  match v with
  | JVal.arr elems => Except.ok elems
  | _ => Except.error "TypeError: not an array"

/-- The `payback_period` loop of `calculateFinancialMetrics` (lines 253-263):
walk the cash flows accumulating, break at the first index where the
cumulative flow reaches 0; `paybackPeriod` stays 0 when breakeven is never
reached.  Returns the final `(paybackPeriod, cumulativeCashFlow)` pair. -/
def paybackLoop : List JVal → ℚ → ℕ → ℕ × ℚ
  | [], cum, _ => (0, cum)
  | cf :: rest, cum, i =>
      let cum' := cum + toNum cf
      if 0 ≤ cum' then (i + 1, cum') else paybackLoop rest cum' (i + 1)

/-- `calculateFinancialMetrics` (lines 237-268). -/
def calculateFinancialMetrics (params : JVal) : Except String JVal := do
  let initial_investment := toNum (jget params "initial_investment")
  let cash_flows := jget params "cash_flows"
  let discount_rate := match jget params "discount_rate" with
                       | JVal.undef => (1 : ℚ)/10
                       | v => toNum v
  match jget params "metric_type" with
  | JVal.str "roi" => do
      let cfs ← elemsOf cash_flows
      let totalReturn := (cfs.map toNum).sum
      let roi := (totalReturn - initial_investment) / initial_investment * 100
      pure (JVal.obj [("metric", JVal.str "ROI"), ("value", JVal.num roi),
                      ("calculation", JVal.str "((totalReturn - initial_investment) / initial_investment) * 100")])
  | JVal.str "npv" => do
      let cfs ← elemsOf cash_flows
      let npv := -initial_investment +
        ((List.range cfs.length).zip cfs |>.map fun p =>
          toNum p.2 / (1 + discount_rate) ^ (p.1 + 1)).sum
      pure (JVal.obj [("metric", JVal.str "NPV"), ("value", JVal.num npv),
                      ("discount_rate", JVal.num (discount_rate * 100))])
  | JVal.str "payback_period" => do
      let cfs ← elemsOf cash_flows
      let r := paybackLoop cfs (-initial_investment) 0
      pure (JVal.obj [("metric", JVal.str "Payback Period"), ("value", JVal.num r.1),
                      ("breakeven", JVal.bool (decide (0 ≤ r.2)))])
  | _ => pure (JVal.obj [("error", JVal.str "Unsupported metric type")])

/-- JavaScript's `String.replace` with a plain-string pattern replaces only
the first occurrence. -/
def replaceFirst (s pat repl : String) : String :=
  match s.splitOn pat with
  | [] => s
  | [x] => x
  | x :: y :: rest => x ++ repl ++ String.intercalate pat (y :: rest)

/-- `generateFinancialReport` (lines 270-287); throws unless `report_type`
is a string (`report_type.replace` on anything else is a `TypeError`). -/
def generateFinancialReport (params : JVal) : Except String JVal :=
  match jget params "report_type" with
  | JVal.str rt =>
      Except.ok (JVal.obj
        [("report_type", JVal.str rt),
         ("period", jget params "period"),
         ("generated_at", JVal.str "generated_at"),
         ("summary", JVal.str ((replaceFirst rt "_" " ").toUpper)),
         ("status", JVal.str "Generated successfully"),
         ("recommendations", JVal.arr
            [JVal.str "Review monthly variances",
             JVal.str "Monitor cash flow trends",
             JVal.str "Optimize expense categories"])])
  | _ => Except.error "TypeError: report_type.replace is not a function"

/-- `trackBudget` (lines 289-305); throws unless both amounts are numbers
(`budgeted_amount.toFixed` / `actual_amount.toFixed` on anything else is a
`TypeError`). -/
def trackBudget (params : JVal) : Except String JVal :=
  match jget params "budgeted_amount", jget params "actual_amount" with
  | JVal.num budgeted_amount, JVal.num actual_amount =>
      let period := match jget params "period" with
                    | JVal.undef => JVal.str "monthly"
                    | v => v
      let variance := actual_amount - budgeted_amount
      let variancePercentage := variance / budgeted_amount * 100
      Except.ok (JVal.obj
        [("category", jget params "category"),
         ("period", period),
         ("budgeted_amount", JVal.num budgeted_amount),
         ("actual_amount", JVal.num actual_amount),
         ("variance", JVal.num variance),
         ("variance_percentage", JVal.num variancePercentage),
         ("status", JVal.str (if 0 < variance then "Over Budget"
                              else if variance < 0 then "Under Budget" else "On Budget")),
         ("alert", JVal.str (if 10 < |variancePercentage| then "Significant variance detected"
                             else "Within acceptable range"))])
  | _, _ => Except.error "TypeError: toFixed is not a function"

/-- The `standardDeduction` table of `calculateTax` (lines 311-316). -/
def standardDeduction (filingStatus : JVal) : ℚ :=
  match filingStatus with
  | JVal.str "single" => 14600
  | JVal.str "married_joint" => 29200
  | JVal.str "married_separate" => 14600
  | JVal.str "head_of_household" => 21900
  | _ => 14600

/-- `calculateTax` (lines 307-337); `deductions` defaults to `[]`, a present
non-array `deductions` makes `.reduce` throw, a non-numeric `income` makes
`income.toFixed` throw. -/
def calculateTax (params : JVal) : Except String JVal := do
  let deductions ← match jget params "deductions" with
                   | JVal.undef => Except.ok ([] : List JVal)
                   | v => elemsOf v
  match jget params "income" with
  | JVal.num income => do
      let totalDeductions := (deductions.map fun d => toNum (jget d "amount")).sum
      let effectiveDeduction := max (standardDeduction (jget params "filing_status")) totalDeductions
      let taxableIncome := max 0 (income - effectiveDeduction)
      let tax := if 0 < taxableIncome then taxableIncome * 22 / 100 else 0
      pure (JVal.obj
        [("tax_year", jget params "tax_year"),
         ("filing_status", jget params "filing_status"),
         ("gross_income", JVal.num income),
         ("total_deductions", JVal.num effectiveDeduction),
         ("taxable_income", JVal.num taxableIncome),
         ("estimated_tax", JVal.num tax),
         ("effective_rate", JVal.num (tax / income * 100))])
  | _ => Except.error "TypeError: income.toFixed is not a function"

/-- The error-shaped object returned by the internal `catch` of
`fetchGeneralLedgerReport` (lines 394-401). -/
def ledgerErrorResult (msg : String) : JVal :=
  JVal.obj [("error", JVal.str ("Failed to fetch General Ledger Report: " ++ msg)),
            ("report_type", JVal.str "General Ledger Report"),
            ("generated_at", JVal.str "generated_at")]

/-- `fetchGeneralLedgerReport` (lines 339-402).  The network interaction is
abstracted into `fetchOutcome`: `Except.error` covers a rejected `fetch`, a
non-2xx response (the `!response.ok` throw) and a JSON parse failure, while
`Except.ok` carries the parsed body.  All failure paths — including a body
that is not an array, on which `data.map` throws — are caught internally, so
this handler never throws outward. -/
def fetchGeneralLedgerReport (fetchOutcome : Except String JVal) (params : JVal) :
    Except String JVal :=
  match fetchOutcome with
  | Except.error e => Except.ok (ledgerErrorResult e)
  | Except.ok body =>
      match body with
      | JVal.arr data =>
          Except.ok (JVal.obj
            [("report_type", JVal.str "General Ledger Report"),
             ("generated_at", JVal.str "generated_at"),
             ("total_entries", JVal.num data.length),
             ("date_range", JVal.obj
                [("from", if truthy (jget params "date_from") then jget params "date_from"
                          else JVal.str "All dates"),
                 ("to", if truthy (jget params "date_to") then jget params "date_to"
                        else JVal.str "All dates")]),
             ("account_filter", if truthy (jget params "account_filter")
                                then jget params "account_filter"
                                else JVal.str "All accounts"),
             ("entries", JVal.arr (data.map fun entry => JVal.obj
                [("postingDate", if truthy (jget entry "postingDate")
                                 then jget entry "postingDate" else JVal.str "N/A"),
                 ("account", if truthy (jget entry "account")
                             then jget entry "account" else JVal.str "Unknown"),
                 ("debit", JVal.num (toNum (jget entry "debit"))),
                 ("credit", JVal.num (toNum (jget entry "credit"))),
                 ("balance", JVal.num (toNum (jget entry "balance"))),
                 ("voucherType", if truthy (jget entry "voucherType")
                                 then jget entry "voucherType" else JVal.str "N/A"),
                 ("voucherNo", if truthy (jget entry "voucherNo")
                               then jget entry "voucherNo" else JVal.str "N/A")])),
             ("summary", JVal.obj
                [("total_debits", JVal.num (data.map fun e => toNum (jget e "debit")).sum),
                 ("total_credits", JVal.num (data.map fun e => toNum (jget e "credit")).sum),
                 ("net_balance", JVal.num (data.map fun e => toNum (jget e "balance")).sum)])])
      | _ => Except.ok (ledgerErrorResult "TypeError: data.map is not a function")

/-- One inbound `ToolInvocation` of a `message.toolCall.functionCalls` batch. -/
structure FunctionCall where
  fid : String
  name : String
  args : JVal

/-- One outbound `ToolResult` (the `functionResponses` entries of lines
438-442). -/
structure FunctionResponse where
  fid : String
  name : String
  response : JVal

/-- The static tool-name table of the `switch` (lines 412-430). -/
def knownToolNames : List String :=
  ["calculate_financial_metrics", "generate_financial_report", "budget_tracker",
   "tax_calculator", "fetch_general_ledger_report"]

/-- The `switch (fc.name)` dispatch inside the `try` of `handleToolCall`
(lines 411-430); the `default` branch yields an error-shaped object without
throwing. -/
def runTool (fetchOutcome : Except String JVal) (name : String) (args : JVal) :
    Except String JVal :=
  match name with
  | "calculate_financial_metrics" => calculateFinancialMetrics args
  | "generate_financial_report" => generateFinancialReport args
  | "budget_tracker" => trackBudget args
  | "tax_calculator" => calculateTax args
  | "fetch_general_ledger_report" => fetchGeneralLedgerReport fetchOutcome args
  | _ => Except.ok (JVal.obj [("error", JVal.str ("Unknown function: " ++ name))])

/-- One iteration of the `for (const fc of toolCall.functionCalls)` loop
(lines 408-443): run the named tool inside `try`, converting a thrown
exception into the error-shaped result of the `catch` (line 435), and wrap
the result with the invocation's `id` and `name`. -/
def toolResult (fetchOutcome : Except String JVal) (fc : FunctionCall) : FunctionResponse :=
  match runTool fetchOutcome fc.name fc.args with
  | Except.ok v => { fid := fc.fid, name := fc.name, response := v }
  | Except.error e =>
      { fid := fc.fid, name := fc.name,
        response := JVal.obj [("error", JVal.str ("Error executing " ++ fc.name ++ ": " ++ e))] }

/-- `handleToolCall` (lines 405-449): the loop collects one `FunctionResponse`
per invocation, in array order. -/
def handleToolCall (fetchOutcome : Except String JVal) (fcs : List FunctionCall) :
    List FunctionResponse :=
  fcs.map (toolResult fetchOutcome)

/-- The messages `handleToolCall` hands to the transport: a single
`session.sendToolResponse({ functionResponses })` carrying the whole batch,
when a session is open (lines 446-448), and nothing otherwise. -/
def toolReplySends (svc : SvcState) (fetchOutcome : Except String JVal)
    (fcs : List FunctionCall) : List (List FunctionResponse) :=
  if sessionOpen svc then [handleToolCall fetchOutcome fcs] else []

/-- The alternating frame `[1, -1, 1, -1, ...]` of spec test 8.3. -/
def altFrame (n : ℕ) : List ℚ := (List.range n).map fun i => (-1) ^ i

/-! ### Theorems -/

/-- Evaluation helper: `Int.toNat` on a numeric literal. -/
theorem toNat_lit (n : ℕ) [n.AtLeastTwo] :
    (no_index (OfNat.ofNat n) : ℤ).toNat = OfNat.ofNat n := rfl

example : downsample [1, 2, 3, 4] 16000 = [1, 2, 3, 4] := by
  norm_num [downsample, downsampleLoop, qround, TARGET_SAMPLE_RATE, toNat_lit]
example : downsample [1, 1, 1, 1, 1, 1] 48000 = [1, 1] := by
  norm_num [downsample, downsampleLoop, qround, TARGET_SAMPLE_RATE, toNat_lit]
example : pcm16EncodeSample (1/2) = 16383 := by
  norm_num [pcm16EncodeSample, clampSample, toInt16Trunc, Int.ceil_neg, neg_div]
example : pcm16EncodeSample (-1/2) = -16384 := by
  norm_num [pcm16EncodeSample, clampSample, toInt16Trunc, Int.ceil_neg, neg_div]
example : pcm16EncodeSample 0 = 0 := by
  norm_num [pcm16EncodeSample, clampSample, toInt16Trunc, Int.ceil_neg, neg_div]

theorem appInv_init : AppInv appInit := by
  simp [AppInv, appInit]

theorem appInv_step (s : AppState) (e : AppEvent) (hs : AppInv s) : AppInv (appStep s e) := by
  obtain ⟨h1, h2, h3, h4⟩ := hs
  cases e with
  | toggle =>
      by_cases hI : s.assistantState = AssistantState.IDLE
      · obtain ⟨hq, hp, hc⟩ := h2 (by simp [hI])
        simp [appStep, hI, startConversation, AppInv, hq, hp, hc]
      · simp [appStep, hI, endConversation, stopPlayback, AppInv]
  | opened =>
      by_cases hP : s.assistantState = AssistantState.PROCESSING
      · obtain ⟨hq, hp, hc⟩ := h2 (by simp [hP])
        have hctx := h3 (by simp [hP])
        simp [appStep, onOpen, hP, AppInv, hq, hp, hc, hctx]
      · have heq : appStep s AppEvent.opened = s := by simp [appStep, onOpen, hP]
        rw [heq]; exact ⟨h1, h2, h3, h4⟩
  | errored =>
      simp [appStep, endConversation, stopPlayback, AppInv]
  | audio now buf =>
      by_cases hL : s.assistantState = AssistantState.LISTENING
      · obtain ⟨hq, hp, hc⟩ := h2 (by simp [hL])
        have hctx := h3 (by simp [hL])
        have hcnt := h4 hL
        simp [appStep, onAudio, hL, addAudioChunkToQueue, AppInv, hq, hp, hc, hctx, hcnt]
      · by_cases hS : s.assistantState = AssistantState.SPEAKING
        · have hctx := h3 (by simp [hS])
          rcases h1 hS with ⟨hp, hcnt⟩ | ⟨hp, hq, hc, hcnt⟩
          · simp [appStep, onAudio, hL, addAudioChunkToQueue, AppInv, hS, hp, hctx, hcnt]
          · simp [appStep, onAudio, hL, addAudioChunkToQueue, playNextInQueue, AppInv,
                  hS, hp, hq, hc, hctx, hcnt]
        · have heq : appStep s (AppEvent.audio now buf) = s := by
            simp [appStep, onAudio, hL, addAudioChunkToQueue, hS]
          rw [heq]; exact ⟨h1, h2, h3, h4⟩
  | ended now src =>
      by_cases hcur : s.currentSource = some src
      · by_cases hS : s.assistantState = AssistantState.SPEAKING
        · have hctx := h3 (by simp [hS])
          rcases h1 hS with ⟨hp, hcnt⟩ | ⟨hp, hq, hc, hcnt⟩
          · rcases hq : s.audioQueue with _ | ⟨b, rest⟩
            · simp [appStep, onEnded, hcur, playNextInQueue, hq, hS, AppInv, hctx]
            · simp [appStep, onEnded, hcur, playNextInQueue, hq, hS, AppInv, hctx, hcnt]
          · rw [hc] at hcur
            exact absurd hcur (by simp)
        · obtain ⟨hq, hp, hc⟩ := h2 hS
          rw [hc] at hcur
          exact absurd hcur (by simp)
      · have heq : appStep s (AppEvent.ended now src) = s := by simp [appStep, onEnded, hcur]
        rw [heq]; exact ⟨h1, h2, h3, h4⟩
  | frame inputData inputSampleRate =>
      by_cases hS : s.assistantState = AssistantState.SPEAKING
      · have hctx := h3 (by simp [hS])
        by_cases hv : vadTrigger (downsample inputData inputSampleRate) = true
        · simp [appStep, processAudioApp, hS, hv, handleInterrupt, stopPlayback, AppInv, hctx]
        · have heq : appStep s (AppEvent.frame inputData inputSampleRate) = s := by
            simp [appStep, processAudioApp, hv]
          rw [heq]; exact ⟨h1, h2, h3, h4⟩
      · have heq : appStep s (AppEvent.frame inputData inputSampleRate) = s := by
          simp [appStep, processAudioApp, hS]
        rw [heq]; exact ⟨h1, h2, h3, h4⟩

theorem appInv_run (events : List AppEvent) : AppInv (appRun events) := by
  suffices h : ∀ s, AppInv s → AppInv (events.foldl appStep s) from h appInit appInv_init
  induction events with
  | nil => exact fun s hs => hs
  | cons e es ih => exact fun s hs => ih (appStep s e) (appInv_step s e hs)

theorem sumSquares_nonneg (frame : List ℚ) : 0 ≤ sumSquares frame := by
  refine List.sum_nonneg ?_
  intro x hx
  obtain ⟨s, _, rfl⟩ := List.mem_map.mp hx
  exact mul_self_nonneg s

theorem meanSquare_nonneg (frame : List ℚ) : 0 ≤ meanSquare frame :=
  div_nonneg (sumSquares_nonneg frame) (Nat.cast_nonneg _)

theorem vadTrigger_iff_rms_gt (frame : List ℚ) :
    vadTrigger frame = true ↔ ((VAD_THRESHOLD : ℚ) : ℝ) < rms frame := by
  rw [vadTrigger, decide_eq_true_iff, rms,
      Real.lt_sqrt (by norm_num [VAD_THRESHOLD] : (0:ℝ) ≤ ((VAD_THRESHOLD : ℚ) : ℝ))]
  exact ⟨fun h => by exact_mod_cast h, fun h => by exact_mod_cast h⟩

theorem sumSquares_replicate_zero (n : ℕ) : sumSquares (List.replicate n (0:ℚ)) = 0 := by
  simp [sumSquares]

theorem rms_replicate_zero (n : ℕ) : rms (List.replicate n (0:ℚ)) = 0 := by
  rw [rms, meanSquare, sumSquares_replicate_zero]
  simp

theorem sumSquares_altFrame (n : ℕ) : sumSquares (altFrame n) = n := by
  rw [sumSquares, altFrame, List.map_map]
  have h : ∀ i ∈ List.range n, ((fun s => s * s) ∘ fun i => ((-1:ℚ)) ^ i) i = 1 := by
    intro i _
    simp [Function.comp]
    rw [← pow_add, ← two_mul, pow_mul]
    norm_num
  rw [List.map_congr_left h]
  simp [List.sum_replicate]

theorem rms_altFrame (n : ℕ) : rms (altFrame (n + 1)) = 1 := by
  have hlen : (altFrame (n + 1)).length = n + 1 := by simp [altFrame]
  have hms : meanSquare (altFrame (n + 1)) = 1 := by
    rw [meanSquare, sumSquares_altFrame, hlen]
    rw [div_self (by positivity)]
  rw [rms, hms]
  simp

theorem downsampleLoop_length (input : List ℚ) (ratio : ℚ) :
    ∀ (n i ob : ℕ), (downsampleLoop input ratio n i ob).length = n := by
  intro n
  induction n with
  | zero => intro i ob; rfl
  | succ n ih => intro i ob; simp [downsampleLoop, ih]

theorem qround_natCast_zero (ratio : ℚ) : (qround (((0:ℕ) : ℚ) * ratio)).toNat = 0 := by
  norm_num [qround]

theorem downsampleLoop_eq_map (input : List ℚ) (ratio : ℚ) :
    ∀ (n i : ℕ),
      downsampleLoop input ratio n i ((qround ((i : ℚ) * ratio)).toNat)
        = (List.range n).map fun j => bucketMeanSpec input ratio (i + j) := by
  intro n
  induction n with
  | zero => intro i; rfl
  | succ n ih =>
      intro i
      rw [downsampleLoop]
      have hcast : (((i + 1 : ℕ) : ℚ)) = (i : ℚ) + 1 := by push_cast; ring
      have htail :
          downsampleLoop input ratio n (i + 1) ((qround (((i : ℚ) + 1) * ratio)).toNat)
            = (List.range n).map fun j => bucketMeanSpec input ratio ((i + 1) + j) := by
        rw [← hcast]; exact ih (i + 1)
      rw [htail, List.range_succ_eq_map, List.map_cons, List.map_map]
      refine congrArg₂ _ rfl ?_
      refine List.map_congr_left ?_
      intro j _
      simp only [Function.comp]
      congr 1
      omega

theorem downsample_eq_map (inputData : List ℚ) (inputSampleRate : ℚ) :
    downsample inputData inputSampleRate
      = (List.range ((qround ((inputData.length : ℚ)
            / (inputSampleRate / TARGET_SAMPLE_RATE))).toNat)).map
          (bucketMeanSpec inputData (inputSampleRate / TARGET_SAMPLE_RATE)) := by
  rw [downsample]
  have h0 := downsampleLoop_eq_map inputData (inputSampleRate / TARGET_SAMPLE_RATE)
      ((qround ((inputData.length : ℚ) / (inputSampleRate / TARGET_SAMPLE_RATE))).toNat) 0
  rw [qround_natCast_zero] at h0
  rw [h0]
  simp

theorem qround_nonneg (x : ℚ) (hx : 0 ≤ x) : 0 ≤ qround x := by
  rw [qround, Int.le_floor]
  push_cast
  linarith

/-- Non-emptiness of every averaging bucket when the source rate is at least
the target rate (`ratio ≥ 1`): the bucket of output index `i` starts strictly
inside the input and strictly before the next bucket. -/
theorem bucket_nonempty (m : ℕ) (r : ℚ) (hr : 1 ≤ r) (i : ℕ)
    (hi : i < (qround ((m : ℚ) / r)).toNat) :
    (qround ((i : ℚ) * r)).toNat < (qround (((i : ℚ) + 1) * r)).toNat
      ∧ (qround ((i : ℚ) * r)).toNat < m := by
  have hr0 : (0:ℚ) < r := lt_of_lt_of_le one_pos hr
  have hnn : 0 ≤ qround ((i : ℚ) * r) := qround_nonneg _ (by positivity)
  have h1 : qround ((i : ℚ) * r) + 1 ≤ qround (((i : ℚ) + 1) * r) := by
    rw [qround, qround, ← Int.floor_add_one]
    refine Int.floor_le_floor ?_
    nlinarith
  have hiz : (i : ℤ) < qround ((m : ℚ) / r) := Int.lt_toNat.mp hi
  rw [qround] at hiz
  have hle : ((i : ℚ) + 1) ≤ (m : ℚ) / r + 1/2 := by
    have := Int.le_floor.mp (by omega : (i : ℤ) + 1 ≤ ⌊(m : ℚ) / r + 1/2⌋)
    push_cast at this
    linarith
  have hm : (i : ℚ) * r + r / 2 ≤ (m : ℚ) := by
    have h' : ((i : ℚ) + 1/2) * r ≤ (m : ℚ) := by
      rw [← le_div_iff₀ hr0]
      linarith
    nlinarith
  have h2 : qround ((i : ℚ) * r) < (m : ℤ) := by
    rw [qround] at hnn ⊢
    rw [Int.floor_lt]
    push_cast
    by_cases hr1 : r = 1
    · subst hr1
      have him : (i : ℚ) < (m : ℚ) := by linarith
      have : i < m := by exact_mod_cast him
      have : (i : ℚ) + 1 ≤ (m : ℚ) := by exact_mod_cast this
      linarith
    · have : 1 < r := lt_of_le_of_ne hr (Ne.symm hr1)
      linarith
  exact ⟨by omega, by omega⟩

theorem bucketMeanSpec_replicate (m : ℕ) (c : ℚ) (r : ℚ) (hr : 1 ≤ r) (i : ℕ)
    (hi : i < (qround ((m : ℚ) / r)).toNat) :
    bucketMeanSpec (List.replicate m c) r i = c := by
  obtain ⟨hab, ham⟩ := bucket_nonempty m r hr i hi
  rw [bucketMeanSpec]
  simp only [List.drop_replicate, List.take_replicate]
  set a := (qround ((i : ℚ) * r)).toNat
  set b := (qround (((i : ℚ) + 1) * r)).toNat
  have hk : 0 < (b - a) ⊓ (m - a) := by
    refine lt_min ?_ ?_ <;> omega
  have hk0 : ((((b - a) ⊓ (m - a)) : ℕ) : ℚ) ≠ 0 := Nat.cast_ne_zero.mpr (by omega)
  rw [List.sum_replicate, List.length_replicate, nsmul_eq_mul]
  exact mul_div_cancel_left₀ c hk0

theorem downsample_replicate (m : ℕ) (c : ℚ) (rate : ℚ)
    (hrate : TARGET_SAMPLE_RATE ≤ rate) :
    downsample (List.replicate m c) rate
      = List.replicate ((qround ((m : ℚ) / (rate / TARGET_SAMPLE_RATE))).toNat) c := by
  have hr : 1 ≤ rate / TARGET_SAMPLE_RATE :=
    (one_le_div (by norm_num [TARGET_SAMPLE_RATE])).mpr hrate
  rw [downsample_eq_map]
  simp only [List.length_replicate]
  refine List.eq_replicate_iff.mpr ⟨by simp, ?_⟩
  intro x hx
  obtain ⟨j, hj, rfl⟩ := List.mem_map.mp hx
  rw [List.mem_range] at hj
  exact bucketMeanSpec_replicate m c _ hr j hj

/-- Claim C4 — resampler: the downsampler produces exactly
`round(inputLength / ratio)` output samples; output sample `i` is the
arithmetic mean of the input samples with index in
`[round(i*ratio), round((i+1)*ratio))` clipped to the valid range; and for
any source rate at least the 16 kHz target rate, downsampling a constant
signal yields the same constant. -/
theorem c4_resampler :
    (∀ (inputData : List ℚ) (inputSampleRate : ℚ),
       (downsample inputData inputSampleRate).length
           = (qround ((inputData.length : ℚ)
               / (inputSampleRate / TARGET_SAMPLE_RATE))).toNat
         ∧ downsample inputData inputSampleRate
           = (List.range ((qround ((inputData.length : ℚ)
               / (inputSampleRate / TARGET_SAMPLE_RATE))).toNat)).map
               (bucketMeanSpec inputData (inputSampleRate / TARGET_SAMPLE_RATE)))
    ∧ (∀ (m : ℕ) (c : ℚ) (inputSampleRate : ℚ), TARGET_SAMPLE_RATE ≤ inputSampleRate →
         downsample (List.replicate m c) inputSampleRate
           = List.replicate ((qround ((m : ℚ)
               / (inputSampleRate / TARGET_SAMPLE_RATE))).toNat) c) := by
  refine ⟨fun inputData inputSampleRate => ⟨?_, downsample_eq_map _ _⟩,
          downsample_replicate⟩
  rw [downsample]
  exact downsampleLoop_length _ _ _ _ _

/-- Witness for C4 at a concrete input: a constant frame of six samples of
value `1/2` at a 48 kHz source rate downsamples to two samples of `1/2`. -/
theorem c4_resampler_witness :
    downsample (List.replicate 6 (1/2 : ℚ)) 48000 = List.replicate 2 (1/2 : ℚ) := by
  have h := c4_resampler.2 6 (1/2) 48000 (by norm_num [TARGET_SAMPLE_RATE])
  norm_num [qround, TARGET_SAMPLE_RATE, toNat_lit] at h
  exact h

/-- Every encoded sample is a valid 16-bit signed integer, so the
`Int16Array` store of App.tsx line 220 never wraps. -/
theorem pcm16EncodeSample_range (x : ℚ) :
    -32768 ≤ pcm16EncodeSample x ∧ pcm16EncodeSample x ≤ 32767 := by
  have h1 : (-1:ℚ) ≤ clampSample x := le_max_left _ _
  have h2 : clampSample x ≤ 1 := max_le (by norm_num) (min_le_left _ _)
  rw [pcm16EncodeSample]
  by_cases hneg : clampSample x < 0
  · rw [if_pos hneg, toInt16Trunc,
        if_pos (by nlinarith : clampSample x * 32768 < 0)]
    constructor
    · have : ((-32768 : ℤ) : ℚ) ≤ clampSample x * 32768 := by push_cast; nlinarith
      have := Int.ceil_le_ceil this
      rwa [Int.ceil_intCast] at this
    · have : ⌈clampSample x * 32768⌉ ≤ ⌈(0:ℚ)⌉ :=
        Int.ceil_le_ceil (by nlinarith)
      simp at this
      omega
  · push_neg at hneg
    rw [if_neg (not_lt.mpr hneg), toInt16Trunc,
        if_neg (not_lt.mpr (by nlinarith : (0:ℚ) ≤ clampSample x * 32767))]
    constructor
    · have : (0:ℤ) ≤ ⌊clampSample x * 32767⌋ :=
        Int.floor_nonneg.mpr (by nlinarith)
      omega
    · have : ⌊clampSample x * 32767⌋ ≤ ⌊((32767 : ℤ) : ℚ)⌋ :=
        Int.floor_le_floor (by push_cast; nlinarith)
      rwa [Int.floor_intCast] at this

/-- Claim C5 — PCM quantization: samples are clamped to `[-1, 1]` and mapped
to 16-bit signed integers (`s*32768` for negative `s`, `s*32767` otherwise,
truncated); decoding maps `v` back to `v/32767`; the encoded value always
fits in a signed 16-bit integer; and the round trip on `[0.5, -0.5, 0.0]`
reproduces each value to within `1/32768`. -/
theorem c5_pcm_round_trip :
    (∀ x : ℚ, -32768 ≤ pcm16EncodeSample x ∧ pcm16EncodeSample x ≤ 32767)
    ∧ pcm16Decode (pcm16Encode [1/2, -1/2, 0])
        = [16383/32767, -16384/32767, 0]
    ∧ |(16383/32767 : ℚ) - 1/2| < 1/32768
    ∧ |(-16384/32767 : ℚ) - (-(1/2))| < 1/32768
    ∧ |(0 : ℚ) - 0| < 1/32768 := by
  refine ⟨pcm16EncodeSample_range, ?_, by rw [abs_lt]; constructor <;> norm_num,
          by rw [abs_lt]; constructor <;> norm_num, by norm_num⟩
  norm_num [pcm16Decode, pcm16Encode, pcm16EncodeSample, clampSample, toInt16Trunc,
            Int.ceil_neg, neg_div]

/-- Claim C6 — VAD: the per-frame speech decision is exactly
`rms(frame) > 0.02` with `rms = sqrt(mean(sample^2))` over the downsampled
frame and no state carried between frames (the decision is a pure function
of the frame); an all-zero frame has RMS `0` and does not trigger, and an
alternating `[1, -1, 1, -1, ...]` frame has RMS `1` and triggers. -/
theorem c6_vad :
    (∀ frame : List ℚ, vadTrigger frame = true ↔ ((VAD_THRESHOLD : ℚ) : ℝ) < rms frame)
    ∧ (∀ n : ℕ, rms (List.replicate n (0:ℚ)) = 0)
    ∧ (∀ n : ℕ, vadTrigger (List.replicate n (0:ℚ)) = false)
    ∧ (∀ n : ℕ, rms (altFrame (n + 1)) = 1)
    ∧ (∀ n : ℕ, vadTrigger (altFrame (n + 1)) = true) := by
  refine ⟨vadTrigger_iff_rms_gt, rms_replicate_zero, ?_, rms_altFrame, ?_⟩
  · intro n
    rw [Bool.eq_false_iff]
    intro hcontra
    have := (vadTrigger_iff_rms_gt _).mp hcontra
    rw [rms_replicate_zero] at this
    norm_num [VAD_THRESHOLD] at this
  · intro n
    rw [vadTrigger_iff_rms_gt, rms_altFrame]
    norm_num [VAD_THRESHOLD]

/-- Claim C1 — barge-in: while `SPEAKING`, a captured frame whose RMS over
the downsampled 16 kHz frame exceeds `0.02` makes `processAudio`
synchronously interrupt playback — clearing the current source (so the
detached completion callback can never re-trigger playback: any subsequent
`onEnded` is a no-op), force-stopping it, emptying the queue, resetting the
playing flag — and transition to `LISTENING`; `stopPlayback` is a no-op when
nothing is playing; and in any state other than `SPEAKING` a loud frame
changes nothing. -/
theorem c1_barge_in :
    (∀ (s : AppState) (inputData : List ℚ) (inputSampleRate : ℚ),
       s.assistantState = AssistantState.SPEAKING →
       ((VAD_THRESHOLD : ℚ) : ℝ) < rms (downsample inputData inputSampleRate) →
       processAudioApp inputData inputSampleRate s
           = { s with assistantState := AssistantState.LISTENING,
                      audioQueue := [], isPlaying := false, currentSource := none,
                      scheduledSinceListening := 0 }
         ∧ (∀ (now : ℚ) (src : Buf),
             onEnded now src (processAudioApp inputData inputSampleRate s)
               = processAudioApp inputData inputSampleRate s))
    ∧ (∀ s : AppState, s.currentSource = none → s.audioQueue = [] →
         s.isPlaying = false → stopPlayback s = s)
    ∧ (∀ (s : AppState) (inputData : List ℚ) (inputSampleRate : ℚ),
         s.assistantState ≠ AssistantState.SPEAKING →
         processAudioApp inputData inputSampleRate s = s) := by
  refine ⟨?_, ?_, ?_⟩
  · intro s inputData inputSampleRate hS hrms
    have hv : vadTrigger (downsample inputData inputSampleRate) = true :=
      (vadTrigger_iff_rms_gt _).mpr hrms
    have heq : processAudioApp inputData inputSampleRate s
        = { s with assistantState := AssistantState.LISTENING,
                   audioQueue := [], isPlaying := false, currentSource := none,
                   scheduledSinceListening := 0 } := by
      simp [processAudioApp, hS, hv, handleInterrupt, stopPlayback]
    refine ⟨heq, fun now src => ?_⟩
    rw [heq]
    simp [onEnded]
  · intro s hc hq hp
    cases s
    simp_all [stopPlayback]
  · intro s inputData inputSampleRate hS
    simp [processAudioApp, hS]

/-- Witness for C1: a concrete speaking state with a playing buffer and a
queued buffer, hit by a loud constant frame at a 16 kHz device rate, ends up
listening with playback fully stopped and `nextPlayTime` untouched. -/
theorem c1_barge_in_witness :
    processAudioApp (List.replicate 4 (1:ℚ)) 16000
        { assistantState := AssistantState.SPEAKING, playerCtx := true,
          audioQueue := [⟨2, 1⟩], isPlaying := true, nextPlayTime := 5,
          currentSource := some ⟨1, 1⟩, scheduledSinceListening := 2, startLog := [] }
      = { assistantState := AssistantState.LISTENING, playerCtx := true,
          audioQueue := [], isPlaying := false, nextPlayTime := 5,
          currentSource := none, scheduledSinceListening := 0, startLog := [] } := by
  have hd : downsample (List.replicate 4 (1:ℚ)) 16000 = List.replicate 4 1 := by
    have h := downsample_replicate 4 1 16000 (by norm_num [TARGET_SAMPLE_RATE])
    norm_num [qround, TARGET_SAMPLE_RATE, toNat_lit] at h
    exact h
  have hrms : ((VAD_THRESHOLD : ℚ) : ℝ) < rms (downsample (List.replicate 4 (1:ℚ)) 16000) := by
    refine (vadTrigger_iff_rms_gt _).mp ?_
    rw [hd]
    norm_num [vadTrigger, meanSquare, sumSquares, VAD_THRESHOLD]
  have h := (c1_barge_in.1
      { assistantState := AssistantState.SPEAKING, playerCtx := true,
        audioQueue := [⟨2, 1⟩], isPlaying := true, nextPlayTime := 5,
        currentSource := some ⟨1, 1⟩, scheduledSinceListening := 2, startLog := [] }
      (List.replicate 4 (1:ℚ)) 16000 rfl hrms).1
  rw [h]

/-- Counterexample to claim C2 as stated: on the reachable run `toggle`,
`opened`, then a first audio chunk at clock `0`, the machine ends up
`SPEAKING` with the chunk dropped — nothing enqueued, nothing scheduled,
nothing playing — because `addAudioChunkToQueue` reads the stale `stateRef`
(still `LISTENING`, the `useEffect` that refreshes it runs only after the
callback).  The claimed iff (Speaking ↔ a chunk scheduled since the last
Listening transition and not drained) is false at this reachable state, and
the first chunk is not admitted. -/
theorem c2_counterexample :
    (appRun [AppEvent.toggle, AppEvent.opened, AppEvent.audio 0 ⟨1, 1⟩]).assistantState
        = AssistantState.SPEAKING
    ∧ (appRun [AppEvent.toggle, AppEvent.opened, AppEvent.audio 0 ⟨1, 1⟩]).audioQueue = []
    ∧ (appRun [AppEvent.toggle, AppEvent.opened, AppEvent.audio 0 ⟨1, 1⟩]).isPlaying = false
    ∧ (appRun [AppEvent.toggle, AppEvent.opened, AppEvent.audio 0 ⟨1, 1⟩]).currentSource = none
    ∧ (appRun [AppEvent.toggle, AppEvent.opened, AppEvent.audio 0 ⟨1, 1⟩]).startLog = []
    ∧ (appRun [AppEvent.toggle, AppEvent.opened,
               AppEvent.audio 0 ⟨1, 1⟩]).scheduledSinceListening = 0
    ∧ ¬((appRun [AppEvent.toggle, AppEvent.opened, AppEvent.audio 0 ⟨1, 1⟩]).assistantState
          = AssistantState.SPEAKING
        ↔ 1 ≤ (appRun [AppEvent.toggle, AppEvent.opened,
                       AppEvent.audio 0 ⟨1, 1⟩]).scheduledSinceListening
          ∧ ((appRun [AppEvent.toggle, AppEvent.opened,
                      AppEvent.audio 0 ⟨1, 1⟩]).isPlaying = true
             ∨ (appRun [AppEvent.toggle, AppEvent.opened,
                        AppEvent.audio 0 ⟨1, 1⟩]).audioQueue ≠ [])) := by
  have h1 : appStep appInit AppEvent.toggle
      = { assistantState := AssistantState.PROCESSING, playerCtx := true,
          audioQueue := [], isPlaying := false, nextPlayTime := 0,
          currentSource := none, scheduledSinceListening := 0, startLog := [] } := by
    norm_num [appStep, appInit, startConversation]
  have h2 : appStep
        { assistantState := AssistantState.PROCESSING, playerCtx := true,
          audioQueue := [], isPlaying := false, nextPlayTime := 0,
          currentSource := none, scheduledSinceListening := 0, startLog := [] }
        AppEvent.opened
      = { assistantState := AssistantState.LISTENING, playerCtx := true,
          audioQueue := [], isPlaying := false, nextPlayTime := 0,
          currentSource := none, scheduledSinceListening := 0, startLog := [] } := by
    norm_num [appStep, onOpen]
  have h3 : appStep
        { assistantState := AssistantState.LISTENING, playerCtx := true,
          audioQueue := [], isPlaying := false, nextPlayTime := 0,
          currentSource := none, scheduledSinceListening := 0, startLog := [] }
        (AppEvent.audio 0 ⟨1, 1⟩)
      = { assistantState := AssistantState.SPEAKING, playerCtx := true,
          audioQueue := [], isPlaying := false, nextPlayTime := 0,
          currentSource := none, scheduledSinceListening := 0, startLog := [] } := by
    simp [appStep, onAudio, addAudioChunkToQueue]
  have hrun : appRun [AppEvent.toggle, AppEvent.opened, AppEvent.audio 0 ⟨1, 1⟩]
      = { assistantState := AssistantState.SPEAKING, playerCtx := true,
          audioQueue := [], isPlaying := false, nextPlayTime := 0,
          currentSource := none, scheduledSinceListening := 0, startLog := [] } := by
    rw [appRun, List.foldl, List.foldl, List.foldl, List.foldl, h1, h2, h3]
  rw [hrun]
  norm_num

/-- Claim C2 (amended) — the Speaking invariant, one direction and the real
admission behavior: at every reachable state, if at least one chunk has been
scheduled since the last transition into `LISTENING` and playback has not
drained, then the state is `SPEAKING`; but the converse fails, because the
first inbound chunk that arrives while `LISTENING` flips the state to
`SPEAKING` and is itself dropped by the not-Speaking admission check (which
reads the stale `stateRef` mirror), leaving the machine Speaking with nothing
scheduled; every chunk that arrives once the state is `SPEAKING` is admitted
— enqueued while a buffer is playing, and scheduled immediately when
playback is idle. -/
theorem c2_speaking_invariant (events : List AppEvent) :
    (1 ≤ (appRun events).scheduledSinceListening
       ∧ ((appRun events).isPlaying = true ∨ (appRun events).audioQueue ≠ []) →
       (appRun events).assistantState = AssistantState.SPEAKING)
    ∧ (∀ (now : ℚ) (buf : Buf),
        (appRun events).assistantState = AssistantState.LISTENING →
        appStep (appRun events) (AppEvent.audio now buf)
          = { appRun events with assistantState := AssistantState.SPEAKING })
    ∧ (∀ (now : ℚ) (buf : Buf),
        (appRun events).assistantState = AssistantState.SPEAKING →
        (appRun events).isPlaying = true →
        appStep (appRun events) (AppEvent.audio now buf)
          = { appRun events with
              audioQueue := (appRun events).audioQueue ++ [buf] })
    ∧ (∀ (now : ℚ) (buf : Buf),
        (appRun events).assistantState = AssistantState.SPEAKING →
        (appRun events).isPlaying = false →
        (appStep (appRun events) (AppEvent.audio now buf)).currentSource = some buf
        ∧ (appStep (appRun events) (AppEvent.audio now buf)).isPlaying = true
        ∧ (appStep (appRun events) (AppEvent.audio now buf)).startLog
            = (appRun events).startLog
                ++ [(buf, max now (appRun events).nextPlayTime)]) := by
  obtain ⟨h1, h2, h3, h4⟩ := appInv_run events
  refine ⟨?_, ?_, ?_, ?_⟩
  · intro ⟨hcnt, hor⟩
    by_contra hS
    obtain ⟨hq, hp, _⟩ := h2 hS
    rcases hor with hor | hor
    · rw [hp] at hor; exact Bool.false_ne_true hor
    · exact hor hq
  · intro now buf hL
    simp [appStep, onAudio, hL, addAudioChunkToQueue]
  · intro now buf hS hp
    have hctx := h3 (by simp [hS])
    simp [appStep, onAudio, hS, addAudioChunkToQueue, hp, hctx]
  · intro now buf hS hp
    have hctx := h3 (by simp [hS])
    rcases h1 hS with ⟨hp', _⟩ | ⟨_, hq, hc, hcnt⟩
    · rw [hp] at hp'; exact absurd hp' (by simp)
    · simp [appStep, onAudio, hS, addAudioChunkToQueue, playNextInQueue, hp, hq, hc, hctx]

/-- Witness for C2 (amended): after `toggle`, `opened` and a first (dropped)
chunk the machine is speaking with playback idle; the next chunk is admitted
and becomes the current source with playback running. -/
theorem c2_speaking_invariant_witness :
    (appStep (appRun [AppEvent.toggle, AppEvent.opened, AppEvent.audio 0 ⟨0, 1⟩])
        (AppEvent.audio 3 ⟨7, 2⟩)).currentSource = some ⟨7, 2⟩
    ∧ (appStep (appRun [AppEvent.toggle, AppEvent.opened, AppEvent.audio 0 ⟨0, 1⟩])
        (AppEvent.audio 3 ⟨7, 2⟩)).isPlaying = true := by
  have hL : (appRun [AppEvent.toggle, AppEvent.opened,
      AppEvent.audio 0 ⟨0, 1⟩]).assistantState = AssistantState.SPEAKING := rfl
  have hp : (appRun [AppEvent.toggle, AppEvent.opened,
      AppEvent.audio 0 ⟨0, 1⟩]).isPlaying = false := rfl
  have h := (c2_speaking_invariant
      [AppEvent.toggle, AppEvent.opened, AppEvent.audio 0 ⟨0, 1⟩]).2.2.2 3 ⟨7, 2⟩ hL hp
  exact ⟨h.1, h.2.1⟩

/-- Claim C3 — gapless scheduler: `playNextInQueue` dequeues the head of the
FIFO queue, schedules it to start at `max(currentClockTime, nextFreeTime)`
and advances `nextFreeTime` to that start plus the chunk's duration; and on
the concrete run where three chunks of durations `1`, `1/2` and `1/5`
seconds are enqueued together at clock time `0` (preceded by the response's
first chunk, which the stale admission check of `onAudio` drops), the logged
start times of the three chunks are exactly `0`, `1` and `3/2`. -/
theorem c3_scheduler :
    (∀ (s : AppState) (now : ℚ) (buf : Buf) (rest : List Buf),
       s.audioQueue = buf :: rest → s.playerCtx = true →
       playNextInQueue now s
         = { s with isPlaying := true, audioQueue := rest,
                    currentSource := some buf,
                    nextPlayTime := max now s.nextPlayTime + buf.duration,
                    scheduledSinceListening := s.scheduledSinceListening + 1,
                    startLog := s.startLog ++ [(buf, max now s.nextPlayTime)] })
    ∧ (appRun [AppEvent.toggle, AppEvent.opened, AppEvent.audio 0 ⟨0, 1⟩,
               AppEvent.audio 0 ⟨1, 1⟩, AppEvent.audio 0 ⟨2, 1/2⟩, AppEvent.audio 0 ⟨3, 1/5⟩,
               AppEvent.ended 1 ⟨1, 1⟩, AppEvent.ended (3/2) ⟨2, 1/2⟩]).startLog
        = [(⟨1, 1⟩, 0), (⟨2, 1/2⟩, 1), (⟨3, 1/5⟩, 3/2)] := by
  constructor
  · intro s now buf rest hq hctx
    simp [playNextInQueue, hq, hctx]
  · have h1 : appStep appInit AppEvent.toggle
        = { assistantState := AssistantState.PROCESSING, playerCtx := true,
            audioQueue := [], isPlaying := false, nextPlayTime := 0,
            currentSource := none, scheduledSinceListening := 0, startLog := [] } := by
      norm_num [appStep, appInit, startConversation]
    have h2 : appStep
          { assistantState := AssistantState.PROCESSING, playerCtx := true,
            audioQueue := [], isPlaying := false, nextPlayTime := 0,
            currentSource := none, scheduledSinceListening := 0, startLog := [] }
          AppEvent.opened
        = { assistantState := AssistantState.LISTENING, playerCtx := true,
            audioQueue := [], isPlaying := false, nextPlayTime := 0,
            currentSource := none, scheduledSinceListening := 0, startLog := [] } := by
      norm_num [appStep, onOpen]
    have h3 : appStep
          { assistantState := AssistantState.LISTENING, playerCtx := true,
            audioQueue := [], isPlaying := false, nextPlayTime := 0,
            currentSource := none, scheduledSinceListening := 0, startLog := [] }
          (AppEvent.audio 0 ⟨0, 1⟩)
        = { assistantState := AssistantState.SPEAKING, playerCtx := true,
            audioQueue := [], isPlaying := false, nextPlayTime := 0,
            currentSource := none, scheduledSinceListening := 0, startLog := [] } := by
      simp [appStep, onAudio, addAudioChunkToQueue]
    have h4 : appStep
          { assistantState := AssistantState.SPEAKING, playerCtx := true,
            audioQueue := [], isPlaying := false, nextPlayTime := 0,
            currentSource := none, scheduledSinceListening := 0, startLog := [] }
          (AppEvent.audio 0 ⟨1, 1⟩)
        = { assistantState := AssistantState.SPEAKING, playerCtx := true,
            audioQueue := [], isPlaying := true, nextPlayTime := 1,
            currentSource := some ⟨1, 1⟩, scheduledSinceListening := 1,
            startLog := [(⟨1, 1⟩, 0)] } := by
      norm_num [appStep, onAudio, addAudioChunkToQueue, playNextInQueue]
    have h5 : appStep
          { assistantState := AssistantState.SPEAKING, playerCtx := true,
            audioQueue := [], isPlaying := true, nextPlayTime := 1,
            currentSource := some ⟨1, 1⟩, scheduledSinceListening := 1,
            startLog := [(⟨1, 1⟩, 0)] }
          (AppEvent.audio 0 ⟨2, 1/2⟩)
        = { assistantState := AssistantState.SPEAKING, playerCtx := true,
            audioQueue := [⟨2, 1/2⟩], isPlaying := true, nextPlayTime := 1,
            currentSource := some ⟨1, 1⟩, scheduledSinceListening := 1,
            startLog := [(⟨1, 1⟩, 0)] } := by
      norm_num [appStep, onAudio, addAudioChunkToQueue]
    have h6 : appStep
          { assistantState := AssistantState.SPEAKING, playerCtx := true,
            audioQueue := [⟨2, 1/2⟩], isPlaying := true, nextPlayTime := 1,
            currentSource := some ⟨1, 1⟩, scheduledSinceListening := 1,
            startLog := [(⟨1, 1⟩, 0)] }
          (AppEvent.audio 0 ⟨3, 1/5⟩)
        = { assistantState := AssistantState.SPEAKING, playerCtx := true,
            audioQueue := [⟨2, 1/2⟩, ⟨3, 1/5⟩], isPlaying := true, nextPlayTime := 1,
            currentSource := some ⟨1, 1⟩, scheduledSinceListening := 1,
            startLog := [(⟨1, 1⟩, 0)] } := by
      norm_num [appStep, onAudio, addAudioChunkToQueue]
    have h7 : appStep
          { assistantState := AssistantState.SPEAKING, playerCtx := true,
            audioQueue := [⟨2, 1/2⟩, ⟨3, 1/5⟩], isPlaying := true, nextPlayTime := 1,
            currentSource := some ⟨1, 1⟩, scheduledSinceListening := 1,
            startLog := [(⟨1, 1⟩, 0)] }
          (AppEvent.ended 1 ⟨1, 1⟩)
        = { assistantState := AssistantState.SPEAKING, playerCtx := true,
            audioQueue := [⟨3, 1/5⟩], isPlaying := true, nextPlayTime := 3/2,
            currentSource := some ⟨2, 1/2⟩, scheduledSinceListening := 2,
            startLog := [(⟨1, 1⟩, 0), (⟨2, 1/2⟩, 1)] } := by
      norm_num [appStep, onEnded, playNextInQueue]
      try simp
    have h8 : appStep
          { assistantState := AssistantState.SPEAKING, playerCtx := true,
            audioQueue := [⟨3, 1/5⟩], isPlaying := true, nextPlayTime := 3/2,
            currentSource := some ⟨2, 1/2⟩, scheduledSinceListening := 2,
            startLog := [(⟨1, 1⟩, 0), (⟨2, 1/2⟩, 1)] }
          (AppEvent.ended (3/2) ⟨2, 1/2⟩)
        = { assistantState := AssistantState.SPEAKING, playerCtx := true,
            audioQueue := [], isPlaying := true, nextPlayTime := 17/10,
            currentSource := some ⟨3, 1/5⟩, scheduledSinceListening := 3,
            startLog := [(⟨1, 1⟩, 0), (⟨2, 1/2⟩, 1), (⟨3, 1/5⟩, 3/2)] } := by
      norm_num [appStep, onEnded, playNextInQueue]
      try simp
    rw [appRun, List.foldl, List.foldl, List.foldl, List.foldl, List.foldl, List.foldl,
        List.foldl, List.foldl, List.foldl, h1, h2, h3, h4, h5, h6, h7, h8]

/-- Witness for C3: scheduling from a concrete one-chunk queue. -/
theorem c3_scheduler_witness :
    playNextInQueue 0
        { assistantState := AssistantState.SPEAKING, playerCtx := true,
          audioQueue := [⟨9, 2⟩], isPlaying := false, nextPlayTime := 0,
          currentSource := none, scheduledSinceListening := 0, startLog := [] }
      = { assistantState := AssistantState.SPEAKING, playerCtx := true,
          audioQueue := [], isPlaying := true, nextPlayTime := 2,
          currentSource := some ⟨9, 2⟩, scheduledSinceListening := 1,
          startLog := [(⟨9, 2⟩, 0)] } := by
  have h := c3_scheduler.1
      { assistantState := AssistantState.SPEAKING, playerCtx := true,
        audioQueue := [⟨9, 2⟩], isPlaying := false, nextPlayTime := 0,
        currentSource := none, scheduledSinceListening := 0, startLog := [] }
      0 ⟨9, 2⟩ [] rfl rfl
  rw [h]
  norm_num

/-- Claim C10 — stale `nextPlayTime` after an interrupt: `stopPlayback` (and
hence the barge-in interrupt) leaves `nextPlayTime` unchanged; it is reset to
`0` only when a new conversation starts; consequently there are histories in
which a chunk enqueued right after an interrupt is scheduled at the stale
future `nextPlayTime` instead of the current clock time: below, after
interrupting a 10-second chunk at clock `3/10`, the first post-interrupt
chunk admitted to the queue is scheduled to start at time `10`. -/
theorem c10_stale_next_play_time :
    (∀ s : AppState, (stopPlayback s).nextPlayTime = s.nextPlayTime)
    ∧ (∀ s : AppState, (handleInterrupt s).nextPlayTime = s.nextPlayTime)
    ∧ (∀ s : AppState, (startConversation s).nextPlayTime = 0)
    ∧ (appRun [AppEvent.toggle, AppEvent.opened,
               AppEvent.audio 0 ⟨0, 1⟩,
               AppEvent.audio 0 ⟨1, 10⟩,
               AppEvent.frame (List.replicate 4 1) 16000,
               AppEvent.audio (3/10) ⟨2, 1⟩,
               AppEvent.audio (3/10) ⟨3, 1⟩]).startLog
        = [(⟨1, 10⟩, 0), (⟨3, 1⟩, 10)] := by
  refine ⟨fun s => rfl, ?_, fun s => rfl, ?_⟩
  · intro s
    rw [handleInterrupt]
    split
    · rfl
    · rfl
  · have h1 : appStep appInit AppEvent.toggle
        = { assistantState := AssistantState.PROCESSING, playerCtx := true,
            audioQueue := [], isPlaying := false, nextPlayTime := 0,
            currentSource := none, scheduledSinceListening := 0, startLog := [] } := by
      norm_num [appStep, appInit, startConversation]
    have h2 : appStep
          { assistantState := AssistantState.PROCESSING, playerCtx := true,
            audioQueue := [], isPlaying := false, nextPlayTime := 0,
            currentSource := none, scheduledSinceListening := 0, startLog := [] }
          AppEvent.opened
        = { assistantState := AssistantState.LISTENING, playerCtx := true,
            audioQueue := [], isPlaying := false, nextPlayTime := 0,
            currentSource := none, scheduledSinceListening := 0, startLog := [] } := by
      norm_num [appStep, onOpen]
    have h3 : appStep
          { assistantState := AssistantState.LISTENING, playerCtx := true,
            audioQueue := [], isPlaying := false, nextPlayTime := 0,
            currentSource := none, scheduledSinceListening := 0, startLog := [] }
          (AppEvent.audio 0 ⟨0, 1⟩)
        = { assistantState := AssistantState.SPEAKING, playerCtx := true,
            audioQueue := [], isPlaying := false, nextPlayTime := 0,
            currentSource := none, scheduledSinceListening := 0, startLog := [] } := by
      simp [appStep, onAudio, addAudioChunkToQueue]
    have h4 : appStep
          { assistantState := AssistantState.SPEAKING, playerCtx := true,
            audioQueue := [], isPlaying := false, nextPlayTime := 0,
            currentSource := none, scheduledSinceListening := 0, startLog := [] }
          (AppEvent.audio 0 ⟨1, 10⟩)
        = { assistantState := AssistantState.SPEAKING, playerCtx := true,
            audioQueue := [], isPlaying := true, nextPlayTime := 10,
            currentSource := some ⟨1, 10⟩, scheduledSinceListening := 1,
            startLog := [(⟨1, 10⟩, 0)] } := by
      norm_num [appStep, onAudio, addAudioChunkToQueue, playNextInQueue]
    have hv : vadTrigger (downsample (List.replicate 4 (1:ℚ)) 16000) = true := by
      have hd : downsample (List.replicate 4 (1:ℚ)) 16000 = List.replicate 4 1 := by
        have h := downsample_replicate 4 1 16000 (by norm_num [TARGET_SAMPLE_RATE])
        norm_num [qround, TARGET_SAMPLE_RATE, toNat_lit] at h
        exact h
      rw [hd]
      norm_num [vadTrigger, meanSquare, sumSquares, VAD_THRESHOLD]
    have h5 : appStep
          { assistantState := AssistantState.SPEAKING, playerCtx := true,
            audioQueue := [], isPlaying := true, nextPlayTime := 10,
            currentSource := some ⟨1, 10⟩, scheduledSinceListening := 1,
            startLog := [(⟨1, 10⟩, 0)] }
          (AppEvent.frame (List.replicate 4 1) 16000)
        = { assistantState := AssistantState.LISTENING, playerCtx := true,
            audioQueue := [], isPlaying := false, nextPlayTime := 10,
            currentSource := none, scheduledSinceListening := 0,
            startLog := [(⟨1, 10⟩, 0)] } := by
      norm_num [appStep, processAudioApp, hv, handleInterrupt, stopPlayback]
    have h6 : appStep
          { assistantState := AssistantState.LISTENING, playerCtx := true,
            audioQueue := [], isPlaying := false, nextPlayTime := 10,
            currentSource := none, scheduledSinceListening := 0,
            startLog := [(⟨1, 10⟩, 0)] }
          (AppEvent.audio (3/10) ⟨2, 1⟩)
        = { assistantState := AssistantState.SPEAKING, playerCtx := true,
            audioQueue := [], isPlaying := false, nextPlayTime := 10,
            currentSource := none, scheduledSinceListening := 0,
            startLog := [(⟨1, 10⟩, 0)] } := by
      simp [appStep, onAudio, addAudioChunkToQueue]
    have h7 : appStep
          { assistantState := AssistantState.SPEAKING, playerCtx := true,
            audioQueue := [], isPlaying := false, nextPlayTime := 10,
            currentSource := none, scheduledSinceListening := 0,
            startLog := [(⟨1, 10⟩, 0)] }
          (AppEvent.audio (3/10) ⟨3, 1⟩)
        = { assistantState := AssistantState.SPEAKING, playerCtx := true,
            audioQueue := [], isPlaying := true, nextPlayTime := 11,
            currentSource := some ⟨3, 1⟩, scheduledSinceListening := 1,
            startLog := [(⟨1, 10⟩, 0), (⟨3, 1⟩, 10)] } := by
      norm_num [appStep, onAudio, addAudioChunkToQueue, playNextInQueue, max_def]
    rw [appRun, List.foldl, List.foldl, List.foldl, List.foldl, List.foldl, List.foldl,
        List.foldl, List.foldl, h1, h2, h3, h4, h5, h6, h7]

/-- Counterexample to claim C7 as stated: the guard of
`startGeminiLiveSession` only tests the `session` variable, which is assigned
when the `await ai.live.connect` resolves — so a second `open()` issued while
the first is still Connecting passes the guard and makes a second connection
attempt (`connectAttempts = 2`), i.e. it is not a no-op. -/
theorem c7_counterexample :
    (startGeminiLiveSessionBegin (startGeminiLiveSessionBegin svcInit)).connectAttempts = 2
    ∧ startGeminiLiveSessionBegin (startGeminiLiveSessionBegin svcInit)
        ≠ startGeminiLiveSessionBegin svcInit := by
  constructor
  · rfl
  · intro h
    have h2 := congrArg SvcState.connectAttempts h
    simp [startGeminiLiveSessionBegin, svcInit] at h2

/-- Claim C7 (amended) — session guard: a call to `startGeminiLiveSession`
while a session handle is set (connect resolved, session Open) is a no-op
making no new connection attempt; in particular the second of two `open()`
calls is a no-op when the first connect has completed.  The guard does not
cover the Connecting phase (see `c7_counterexample`). -/
theorem c7_session_guard :
    (∀ (s : SvcState) (h : SessionHandle), s.session = some h →
       startGeminiLiveSessionBegin s = s)
    ∧ startGeminiLiveSessionBegin
          (connectResolve ⟨0, false⟩ (startGeminiLiveSessionBegin svcInit))
        = connectResolve ⟨0, false⟩ (startGeminiLiveSessionBegin svcInit)
    ∧ (connectResolve ⟨0, false⟩ (startGeminiLiveSessionBegin svcInit)).connectAttempts = 1 := by
  refine ⟨?_, rfl, rfl⟩
  intro s h hs
  simp [startGeminiLiveSessionBegin, hs]

/-- Witness for C7 (amended): with an open handle in place, `open()` changes
nothing. -/
theorem c7_session_guard_witness :
    startGeminiLiveSessionBegin
        { session := some ⟨0, false⟩, pendingConnects := 0,
          connectAttempts := 1, sentAudio := [] }
      = { session := some ⟨0, false⟩, pendingConnects := 0,
          connectAttempts := 1, sentAudio := [] } :=
  c7_session_guard.1
    { session := some ⟨0, false⟩, pendingConnects := 0,
      connectAttempts := 1, sentAudio := [] } ⟨0, false⟩ rfl

/-- Claim C9 — send/close discipline: `sendAudioToGemini` silently drops the
packet whenever no session is Open (no handle, or a closed handle);
`closeGeminiLiveSession` nulls the handle when it closes one, is idempotent,
and afterwards every `sendAudio` is a no-op. -/
theorem c9_send_close :
    (∀ (s : SvcState) (p : String), s.session = none → sendAudioToGemini p s = s)
    ∧ (∀ (s : SvcState) (p : String) (h : SessionHandle),
         s.session = some h → h.isClosed = true → sendAudioToGemini p s = s)
    ∧ (∀ (s : SvcState) (h : SessionHandle),
         s.session = some h → h.isClosed = false →
         (closeGeminiLiveSession s).session = none)
    ∧ (∀ s : SvcState,
         closeGeminiLiveSession (closeGeminiLiveSession s) = closeGeminiLiveSession s)
    ∧ (∀ (s : SvcState) (p : String),
         sendAudioToGemini p (closeGeminiLiveSession s) = closeGeminiLiveSession s) := by
  refine ⟨?_, ?_, ?_, ?_, ?_⟩
  · intro s p hs
    simp [sendAudioToGemini, hs]
  · intro s p h hs hc
    simp [sendAudioToGemini, hs, hc]
  · intro s h hs hc
    simp [closeGeminiLiveSession, hs, hc]
  · intro s
    rcases hs : s.session with _ | h
    · simp [closeGeminiLiveSession, hs]
    · by_cases hc : h.isClosed
      · simp [closeGeminiLiveSession, hs, hc]
      · simp [closeGeminiLiveSession, hs, hc]
  · intro s p
    rcases hs : s.session with _ | h
    · simp [closeGeminiLiveSession, sendAudioToGemini, hs]
    · by_cases hc : h.isClosed
      · simp [closeGeminiLiveSession, sendAudioToGemini, hs, hc]
      · simp [closeGeminiLiveSession, sendAudioToGemini, hs, hc]

/-- Witness for C9: sending into the initial (no-session) state drops the
packet, and closing twice from a concrete open state equals closing once. -/
theorem c9_send_close_witness :
    sendAudioToGemini "pkt" svcInit = svcInit
    ∧ closeGeminiLiveSession (closeGeminiLiveSession
        { session := some ⟨0, false⟩, pendingConnects := 0,
          connectAttempts := 1, sentAudio := [] })
      = closeGeminiLiveSession
        { session := some ⟨0, false⟩, pendingConnects := 0,
          connectAttempts := 1, sentAudio := [] } :=
  ⟨c9_send_close.1 svcInit "pkt" rfl,
   c9_send_close.2.2.2.1
     { session := some ⟨0, false⟩, pendingConnects := 0,
       connectAttempts := 1, sentAudio := [] }⟩

theorem toolResult_fid (fetchOutcome : Except String JVal) (fc : FunctionCall) :
    (toolResult fetchOutcome fc).fid = fc.fid := by
  rw [toolResult]
  cases runTool fetchOutcome fc.name fc.args <;> rfl

theorem toolResult_name (fetchOutcome : Except String JVal) (fc : FunctionCall) :
    (toolResult fetchOutcome fc).name = fc.name := by
  rw [toolResult]
  cases runTool fetchOutcome fc.name fc.args <;> rfl

/-- Claim C8 — tool dispatch: every inbound batch yields exactly one
`FunctionResponse` per invocation, produced positionally in array order and
carrying the invocation's `id` and `name`; dispatch distributes over batch
concatenation; a handler that throws, and an unknown tool name, both yield an
error-shaped result instead of failing the batch; and with an open session
the whole batch is sent back as a single combined reply. -/
theorem c8_tool_dispatch :
    (∀ (fetchOutcome : Except String JVal) (fcs : List FunctionCall),
       (handleToolCall fetchOutcome fcs).length = fcs.length
       ∧ (handleToolCall fetchOutcome fcs).map (fun r => r.fid)
           = fcs.map (fun fc => fc.fid)
       ∧ (handleToolCall fetchOutcome fcs).map (fun r => r.name)
           = fcs.map (fun fc => fc.name))
    ∧ (∀ (fetchOutcome : Except String JVal) (fcs₁ fcs₂ : List FunctionCall),
         handleToolCall fetchOutcome (fcs₁ ++ fcs₂)
           = handleToolCall fetchOutcome fcs₁ ++ handleToolCall fetchOutcome fcs₂)
    ∧ (∀ (fetchOutcome : Except String JVal) (fc : FunctionCall) (e : String),
         runTool fetchOutcome fc.name fc.args = Except.error e →
         isErrorShaped (toolResult fetchOutcome fc).response = true)
    ∧ (∀ (fetchOutcome : Except String JVal) (fid name : String) (args : JVal),
         name ∉ knownToolNames →
         isErrorShaped (toolResult fetchOutcome ⟨fid, name, args⟩).response = true)
    ∧ (∀ (svc : SvcState) (fetchOutcome : Except String JVal) (fcs : List FunctionCall),
         sessionOpen svc = true →
         toolReplySends svc fetchOutcome fcs = [handleToolCall fetchOutcome fcs]) := by
  refine ⟨?_, ?_, ?_, ?_, ?_⟩
  · intro fetchOutcome fcs
    refine ⟨by simp [handleToolCall], ?_, ?_⟩
    · rw [handleToolCall, List.map_map]
      exact List.map_congr_left fun fc _ => toolResult_fid fetchOutcome fc
    · rw [handleToolCall, List.map_map]
      exact List.map_congr_left fun fc _ => toolResult_name fetchOutcome fc
  · intro fetchOutcome fcs₁ fcs₂
    simp [handleToolCall]
  · intro fetchOutcome fc e he
    rw [toolResult, he]
    simp [isErrorShaped]
  · intro fetchOutcome fid name args hname
    simp [knownToolNames] at hname
    obtain ⟨h1, h2, h3, h4, h5⟩ := hname
    rw [toolResult]
    rw [show runTool fetchOutcome name args
          = Except.ok (JVal.obj [("error", JVal.str ("Unknown function: " ++ name))]) from by
      simp only [runTool]]
    simp [isErrorShaped]
  · intro svc fetchOutcome fcs hopen
    simp [toolReplySends, hopen]

/-- Witness for C8: a concrete batch — a `calculate_financial_metrics`
invocation whose handler throws (`roi` with no `cash_flows` array) yields an
error-shaped result, an unknown tool name yields an error-shaped result, and
with an open session a two-invocation batch is sent as one combined reply. -/
theorem c8_tool_dispatch_witness :
    isErrorShaped (toolResult (Except.ok (JVal.arr []))
        ⟨"2", "calculate_financial_metrics",
         JVal.obj [("metric_type", JVal.str "roi")]⟩).response = true
    ∧ isErrorShaped (toolResult (Except.ok (JVal.arr []))
        ⟨"1", "nope", JVal.undef⟩).response = true
    ∧ toolReplySends
        { session := some ⟨0, false⟩, pendingConnects := 0,
          connectAttempts := 1, sentAudio := [] }
        (Except.ok (JVal.arr []))
        [⟨"1", "budget_tracker",
          JVal.obj [("budgeted_amount", JVal.num 100), ("actual_amount", JVal.num 50)]⟩,
         ⟨"2", "calculate_financial_metrics", JVal.obj [("metric_type", JVal.str "roi")]⟩]
      = [handleToolCall (Except.ok (JVal.arr []))
          [⟨"1", "budget_tracker",
            JVal.obj [("budgeted_amount", JVal.num 100), ("actual_amount", JVal.num 50)]⟩,
           ⟨"2", "calculate_financial_metrics", JVal.obj [("metric_type", JVal.str "roi")]⟩]] :=
  ⟨c8_tool_dispatch.2.2.1 (Except.ok (JVal.arr []))
      ⟨"2", "calculate_financial_metrics", JVal.obj [("metric_type", JVal.str "roi")]⟩
      "TypeError: not an array" rfl,
   c8_tool_dispatch.2.2.2.1 (Except.ok (JVal.arr [])) "1" "nope" JVal.undef
      (by simp [knownToolNames]),
   c8_tool_dispatch.2.2.2.2 _ _ _ rfl⟩
